import Mathlib

/-!
Verification of the mini-lambda deferred-expression library.

This file gives a shallow embedding of the expression-tree construction and
evaluation engine of `mini_lambda` (files `mini_lambda/base.py` and
`mini_lambda/main.py`), and proves/refutes the frozen claims about it.

Modelling conventions:
* Python values are embedded as the inductive `PyVal`.  Function objects
  (plain callables that are not lambda expressions) are embedded opaquely as
  `PyVal.callableObj pyName`, since `base.evaluate` never invokes them: it
  returns any non-expression statement unchanged.  `pyName` models the
  optional `__name__` attribute (`some "<lambda>"` for lambdas, `none` for
  callables without a `__name__` such as partial applications).
* Python exceptions are modelled with `Except PyErr`; `PyErr` distinguishes
  `FunctionDefinitionError`, `ValueError`, `AttributeError` and `TypeError`.
* Every evaluation function threads a `Nat` counter.  The wrapped Python
  evaluators are pure, but the counter makes side effects of test doubles
  observable, which is how the spec asks short-circuit laws to be checked
  ("observable via a counting side effect in a test double").  An evaluator
  of the library itself never touches the counter; only the evaluators of
  test doubles used in the theorems below increment it.
* The field `_root_var` of `_LambdaExpressionBase` is spelled `rootVar`
  here, `_get_root_var` is `getRootVar` and `assert_has_same_root_var` is
  `assertHasSameRootVar`.  A variable node stores `id(self)` in this field;
  the embedding takes that unique id as an explicit parameter `vid`
  (CPython object ids of distinct live objects are distinct positive
  machine addresses, in particular never `-1` and never `0`).
* The generated subclass `_LambdaExpressionGenerated` adds a cosmetic
  `repr_on` flag that only affects `__repr__`; it plays no role in any
  claim and is omitted from the structure.
-/

namespace MiniLambda

/-- Embedded Python values.  `callableObj` stands for a plain callable
object (function, partial, class); its payload is the optional `__name__`
attribute of the object. -/
inductive PyVal where
  | none
  | bool (b : Bool)
  | int (n : Int)
  | str (s : String)
  | list (xs : List PyVal)
  | callableObj (pyName : Option String)

/-- Python truthiness (`bool(v)`) of an embedded value. -/
def truthy : PyVal → Bool
  | .none => false
  | .bool b => b
  | .int n => !(n == 0)
  | .str s => !(s == "")
  | .list xs => !xs.isEmpty
  | .callableObj _ => true

/-- Embedded Python exceptions, separated by exception class. -/
inductive PyErr where
  | functionDefinitionError (msg : String)
  | valueError (msg : String)
  | attributeError (msg : String)
  | typeError (msg : String)
deriving DecidableEq, Repr

/-- Evaluator type: a unary function from an input value to a value, in the
exception monad, threading the observation counter. -/
abbrev EvalFun := PyVal → Nat → Except PyErr (PyVal × Nat)

/-- Reserved identity token of constants: `_CONSTANT_VAR_ID = -1` in
`base.py`. -/
def CONSTANT_VAR_ID : Int := -1

/-- Operator precedence levels from `base.py`. -/
def PRECEDENCE_COMPARISON : Int := 5

/-- Precedence level of `|`. -/
def PRECEDENCE_BITWISE_OR : Int := 6

/-- Precedence level of `^`. -/
def PRECEDENCE_BITWISE_XOR : Int := 7

/-- Precedence level of `&`. -/
def PRECEDENCE_BITWISE_AND : Int := 8

/-- Precedence level of `+` and `-`. -/
def PRECEDENCE_ADD_SUB : Int := 10

/-- Precedence level of `*`, `/` and friends. -/
def PRECEDENCE_MUL_DIV_ETC : Int := 11

/-- Precedence level of unary `-`, `+`, `~`. -/
def PRECEDENCE_POS_NEG_BITWISE_NOT : Int := 12

/-- Precedence level of `**`. -/
def PRECEDENCE_EXPONENTIATION : Int := 13

/-- Precedence level of subscription, slicing, call and attribute
reference. -/
def PRECEDENCE_SUBSCRIPTION_SLICING_CALL_ATTRREF : Int := 15

/-- Highest precedence level (`_PRECEDENCE_MAX = 17`), used for fresh
variables and constants. -/
def PRECEDENCE_MAX : Int := 17

/-- The expression node of `base.py` (`_LambdaExpressionBase`, refined as
`LambdaExpression` in `main.py`): an evaluator, a textual form, the root
variable identity token, and the stored precedence level. -/
structure LambdaExpression where
  _fun : EvalFun
  _str_expr : String
  rootVar : Int
  _precedence_level : Int

/-- A statement, as the library functions receive it: either a lambda
expression or any other Python object (plain values and plain callable
objects, the latter embedded as `PyVal.callableObj`). -/
inductive Stmt where
  | expr (e : LambdaExpression)
  | val (v : PyVal)

/-- Python `callable(statement)`: lambda expressions define `__call__` and
are callable, as are plain callable objects. -/
def Stmt.isCallable : Stmt → Bool
  | .expr _ => true
  | .val (.callableObj _) => true
  | .val _ => false

/-- The `evaluate` method of `_LambdaExpressionBase`: run the inner
function on the input. -/
def LambdaExpression.evaluate (self : LambdaExpression) : EvalFun :=
  self._fun

/-- The `to_string` method of `_LambdaExpressionBase`: return the stored
string representation verbatim. -/
def LambdaExpression.to_string (self : LambdaExpression) : String :=
  self._str_expr

/-- The module-level helper `evaluate` of `base.py`.  If the statement is a
lambda expression it is evaluated on the input; otherwise the statement is
returned directly.  (Note: the docstring of this Python function claims
that a non-expression callable is called on the input, but the code returns
it unchanged; the embedding follows the code.) -/
def evaluate (statement : Stmt) (input : PyVal) (n : Nat) :
    Except PyErr (PyVal × Nat) :=
  match statement with
  | .expr e => e.evaluate input n
  | .val v => .ok (v, n)

/-- The method `assert_has_same_root_var` of `base.py`: if `other` is also
an expression, check the two identity tokens (constants, token `-1`, are
compatible with anything) and return the identity for a combined
expression, preferring the non-constant one; a non-expression argument
contributes nothing and yields the receiver identity. -/
def assertHasSameRootVar (self : LambdaExpression) (other : Stmt) :
    Except PyErr Int :=
  match other with
  | .expr o =>
      if self.rootVar ≠ CONSTANT_VAR_ID ∧ o.rootVar ≠ CONSTANT_VAR_ID ∧
          self.rootVar ≠ o.rootVar then
        .error (.functionDefinitionError
          "It is not allowed to combine several variables (x, s, l...) in the same expression")
      else
        .ok (if self.rootVar ≠ CONSTANT_VAR_ID then self.rootVar else o.rootVar)
  | .val _ => .ok self.rootVar

/-- The for-loop body of `_get_root_var` after the first expression has
been found: each remaining argument is checked against that first
expression, and the running `root_var` is overwritten by the result of the
latest check. -/
def grvLoop (first : LambdaExpression) (rv : Option Int) :
    List Stmt → Except PyErr (Option Int)
  | [] => .ok rv
  | a :: rest =>
      match assertHasSameRootVar first a with
      | .error e => .error e
      | .ok r => grvLoop first (some r) rest

/-- The leading phase of the `_get_root_var` loop: skip arguments until the
first lambda expression is found, then hand over to `grvLoop`. -/
def grvScan : List Stmt → Except PyErr (Option Int × Option LambdaExpression)
  | [] => .ok (none, none)
  | .expr e :: rest =>
      match grvLoop e none rest with
      | .error err => .error err
      | .ok rv => .ok (rv, some e)
  | .val _ :: rest => grvScan rest

/-- The final `root_var or (first_expression._root_var if ... else None)` of
`_get_root_var`, with Python falsiness of the integer `0`. -/
def pyOrRoot (rv : Option Int) (fe : Option LambdaExpression) : Option Int :=
  match rv with
  | some x => if x = 0 then fe.map (·.rootVar) else some x
  | none => fe.map (·.rootVar)

/-- The module-level helper `_get_root_var` of `base.py`: returns the root
variable to use when the arguments are combined in one expression together
with the first expression found, or raises `FunctionDefinitionError` when a
later argument is found incompatible with the first expression.  Positional
and keyword argument values are modelled as one list, in the order Python
iterates them. -/
def getRootVar (args : List Stmt) :
    Except PyErr (Option Int × Option LambdaExpression) :=
  match grvScan args with
  | .error e => .error e
  | .ok (rv, fe) => .ok (pyOrRoot rv fe, fe)

mutual

/-- Python `repr` restricted to the embedded value universe (used by
`get_repr` for non-callable, non-expression arguments; the slice special
case of `get_repr` concerns slice objects, which are outside the embedded
universe). -/
def pyRepr : PyVal → String
  | .none => "None"
  | .bool b => if b then "True" else "False"
  | .int n => toString n
  | .str s => "'" ++ s ++ "'"
  | .list xs => "[" ++ pyReprList xs ++ "]"
  | .callableObj pn => "<callable " ++ (pn.getD "?") ++ ">"

/-- Comma-separated `repr` of the elements of an embedded list. -/
def pyReprList : List PyVal → String
  | [] => ""
  | [v] => pyRepr v
  | v :: rest => pyRepr v ++ ", " ++ pyReprList rest

end

/-- Python `str` restricted to the embedded value universe: like `repr`
except that strings print without quotes. -/
def pyStr : PyVal → String
  | .str s => s
  | v => pyRepr v

/-- The module-level helper `get_repr` of `base.py`.  A non-callable value
prints with `repr`; a lambda expression prints its stored text, surrounded
with parentheses exactly when the requesting context precedence is not
`None` and strictly higher than the precedence stored in the expression; a
plain callable prints its `__name__`. -/
def getRepr (statement : Stmt) (targetPrecedenceLevel : Option Int) : String :=
  match statement with
  | .val (.callableObj pn) => pn.getD "<no name>"
  | .val v => pyRepr v
  | .expr e =>
      match targetPrecedenceLevel with
      | some t =>
          if e._precedence_level < t then "(" ++ e._str_expr ++ ")"
          else e._str_expr
      | none => e._str_expr

/-- Case 1 of the `_LambdaExpressionBase` constructor (`is_constant=True`):
the evaluator ignores its input and returns the constant value, the
identity token is the reserved constant token, and the precedence is the
maximum.  `strExpr` is the symbol chosen by the caller (`constant` always
passes one). -/
def constantNode (strExpr : String) (constantValue : PyVal) : LambdaExpression :=
  { _fun := fun _ n => .ok (constantValue, n)
    _str_expr := strExpr
    rootVar := CONSTANT_VAR_ID
    _precedence_level := PRECEDENCE_MAX }

/-- Case 2 of the `_LambdaExpressionBase` constructor together with
`main.InputVar`: the evaluator is the identity, the display symbol defaults
to `x` when the given string is empty (Python `str_expr or 'x'`), the
identity token is `id(self)` — modelled by the explicit parameter `vid`,
unique per created object — and the precedence is the maximum. -/
def InputVar (symbol : String) (vid : Int) : LambdaExpression :=
  { _fun := fun x n => .ok (x, n)
    _str_expr := if symbol = "" then "x" else symbol
    rootVar := vid
    _precedence_level := PRECEDENCE_MAX }

/-- Python falsiness-aware `name or fallback` on an optional string and an
optional fallback (an empty string falls through, like `None`). -/
def pyOrStr : Option String → Option String → Option String
  | some s, b => if s = "" then b else some s
  | none, b => b

/-- The classmethod `constant` of `base.py` (exposed as `main.Constant`).
A class or callable value prints with its `__name__` unless a display name
is supplied; a callable that cannot report a usable name (no `__name__`,
modelled as `none`, or the anonymous name `<lambda>`) requires an explicit
name, and omitting it raises `ValueError`.  Any other value prints with
`str(value)` by default.  (The source splits classes and callables into
two branches that build the identical constant node; classes always carry
their `__name__`, so the merged branch below behaves identically.) -/
def LambdaExpression.constant (value : PyVal) (name : Option String) :
    Except PyErr LambdaExpression :=
  match value with
  | .callableObj pn =>
      if (pn = none ∨ pn = some "<lambda>") ∧ name = none then
        .error (.valueError
          "This method does not have a name (it is either a partial or a lambda) so you have to provide one: the name argument is mandatory")
      else
        match pyOrStr name pn with
        | some s => .ok (constantNode s value)
        | none => .error (.attributeError "function object has no attribute __name__")
  | v => .ok (constantNode ((pyOrStr name (some (pyStr v))).getD "") v)

/-- A Python method passed to `_get_expression_for_method_with_args`
(or to `add_unbound_method_to_stack`): its `__name__` and its behaviour on
fully evaluated argument values. -/
structure PyMethod where
  name : String
  impl : List PyVal → Except PyErr PyVal

/-- Left-to-right evaluation of an argument list against one input, as in
`[evaluate(arg, input) for arg in args]`. -/
def evalStmts (args : List Stmt) (input : PyVal) (n : Nat) :
    Except PyErr (List PyVal × Nat) :=
  match args with
  | [] => .ok ([], n)
  | a :: rest =>
      match evaluate a input n with
      | .error e => .error e
      | .ok (v, n1) =>
          match evalStmts rest input n1 with
          | .error e => .error e
          | .ok (vs, n2) => .ok (v :: vs, n2)

/-- The raw value a non-expression statement denotes (used when a method is
executed immediately because no argument is an expression). -/
def stmtVal : Stmt → PyVal
  | .val v => v
  | .expr _ => .none

/-- The classmethod `_get_expression_for_method_with_args` of `base.py`:
reconcile the identities of the arguments; if no argument is an expression,
execute the method immediately and wrap the result as a constant; otherwise
return a new deferred expression at call precedence whose evaluator
evaluates every argument against the input and then applies the method. -/
def getExpressionForMethodWithArgs (method : PyMethod) (args : List Stmt) :
    Except PyErr LambdaExpression :=
  match getRootVar args with
  | .error e => .error e
  | .ok (rootVar?, _) =>
      match rootVar? with
      | none =>
          match method.impl (args.map stmtVal) with
          | .error e => .error e
          | .ok value => LambdaExpression.constant value none
      | some rv =>
          .ok { _fun := fun input n =>
                  match evalStmts args input n with
                  | .error e => .error e
                  | .ok (vs, n1) =>
                      match method.impl vs with
                      | .error e => .error e
                      | .ok v => .ok (v, n1)
                _str_expr := method.name ++ "(" ++
                  String.intercalate ", " (args.map (fun a => getRepr a none)) ++ ")"
                rootVar := rv
                _precedence_level := PRECEDENCE_SUBSCRIPTION_SLICING_CALL_ATTRREF }

/-- The behaviour of the builtin `bool` on evaluated arguments. -/
def boolMethod : PyMethod :=
  { name := "bool"
    impl := fun vs =>
      match vs with
      | [v] => .ok (.bool (truthy v))
      | _ => .error (.typeError "bool expected one argument") }

/-- The inner function `__not` of `main.LambdaExpression.not_`. -/
def notMethod : PyMethod :=
  { name := "__not"
    impl := fun vs =>
      match vs with
      | [v] => .ok (.bool (!truthy v))
      | _ => .error (.typeError "not expected one argument") }

/-- Modelled from the spec: `Bool`, the explicitly-named deferred
replacement for the builtin `bool` (generated in `goodies_generated.py`,
which is not part of the sources; the spec describes such helpers as the
generic "wrap an arbitrary callable as a deferred-call node" entry point
applied to the builtin).  It is only reached by the warning branches of the
boolean operators, which no claim exercises. -/
def boolExpr (self : LambdaExpression) : Except PyErr LambdaExpression :=
  getExpressionForMethodWithArgs boolMethod [.expr self]

/-- The method `not_` of `main.LambdaExpression`: stack `not x` on top of
this expression via `add_unbound_method_to_stack`. -/
def LambdaExpression.not_ (self : LambdaExpression) : Except PyErr LambdaExpression :=
  getExpressionForMethodWithArgs notMethod [.expr self]

/-- Result of a boolean operator: either a new lambda expression or an
immediately computed Python value (the warning branches return raw
booleans). -/
inductive OpResult where
  | expr (e : LambdaExpression)
  | val (v : PyVal)

/-- The method `__and__` of `main.LambdaExpression`.  A non-callable right
side is a misuse case handled immediately (falsy: literal `False`; truthy:
a boolean expression of the left side).  Otherwise a new expression at `&`
precedence is built whose evaluator first evaluates the left side,
short-circuits to `False` when it is falsy, and otherwise passes the right
side through `evaluate` and casts the result to bool. -/
def LambdaExpression.and_ (self : LambdaExpression) (other : Stmt) :
    Except PyErr OpResult :=
  if other.isCallable then
    match getRootVar [.expr self, other] with
    | .error e => .error e
    | .ok (rv, _) =>
        .ok (.expr
          { _fun := fun input n =>
              match self.evaluate input n with
              | .error e => .error e
              | .ok (left, n1) =>
                  if truthy left = false then
                    .ok (.bool false, n1)
                  else
                    match MiniLambda.evaluate other input n1 with
                    | .error e => .error e
                    | .ok (right, n2) => .ok (.bool (truthy right), n2)
            _str_expr := getRepr (.expr self) (some PRECEDENCE_BITWISE_AND) ++
              " & " ++ getRepr other (some PRECEDENCE_BITWISE_AND)
            rootVar := rv.getD self.rootVar
            _precedence_level := PRECEDENCE_BITWISE_AND })
  else
    match other with
    | .val v =>
        if truthy v = false then .ok (.val (.bool false))
        else
          match boolExpr self with
          | .error e => .error e
          | .ok b => .ok (.expr b)
    | .expr _ => .ok (.val (.bool false))

/-- Python `a and b` on embedded values (returns one of the operands). -/
def pyAndV (a b : PyVal) : PyVal := if truthy a then b else a

/-- Python `a or b` on embedded values (returns one of the operands). -/
def pyOrV (a b : PyVal) : PyVal := if truthy a then a else b

/-- Python `not a` on embedded values (returns a genuine bool). -/
def pyNotV (a : PyVal) : PyVal := .bool (!truthy a)

/-- The method `__xor__` of `main.LambdaExpression`.  A non-callable right
side is handled immediately (truthy: a negated expression of the left
side; falsy: a boolean expression of the left side).  Otherwise a new
expression at `^` precedence is built whose evaluator evaluates the left
side, passes the right side through `evaluate`, and returns
`(left and not right) or (not left and right)`. -/
def LambdaExpression.xor_ (self : LambdaExpression) (other : Stmt) :
    Except PyErr OpResult :=
  if other.isCallable then
    match getRootVar [.expr self, other] with
    | .error e => .error e
    | .ok (rv, _) =>
        .ok (.expr
          { _fun := fun input n =>
              match self.evaluate input n with
              | .error e => .error e
              | .ok (left, n1) =>
                  match MiniLambda.evaluate other input n1 with
                  | .error e => .error e
                  | .ok (right, n2) =>
                      .ok (pyOrV (pyAndV left (pyNotV right))
                                 (pyAndV (pyNotV left) right), n2)
            _str_expr := getRepr (.expr self) (some PRECEDENCE_BITWISE_XOR) ++
              " ^ " ++ getRepr other (some PRECEDENCE_BITWISE_XOR)
            rootVar := rv.getD self.rootVar
            _precedence_level := PRECEDENCE_BITWISE_XOR })
  else
    match other with
    | .val v =>
        if truthy v then
          match self.not_ with
          | .error e => .error e
          | .ok b => .ok (.expr b)
        else
          match boolExpr self with
          | .error e => .error e
          | .ok b => .ok (.expr b)
    | .expr _ => .ok (.val (.bool false))

/-- Python `a + b` on embedded values (the underlying behaviour of the
`+` operator on the value universe). -/
def pyAdd : PyVal → PyVal → Except PyErr PyVal
  | .int a, .int b => .ok (.int (a + b))
  | .str a, .str b => .ok (.str (a ++ b))
  | .list a, .list b => .ok (.list (a ++ b))
  | _, _ => .error (.typeError "unsupported operand types for +")

/-- Modelled from the spec: the generated magic method `__add__` of
`_LambdaExpressionGenerated` (file `generated_magic.py`, produced by the
code generator from the descriptor
`Override('__add__', pair_operator='+', precedence_level='_PRECEDENCE_ADD_SUB')`
and absent from the sources).  Per the spec, a pairwise operator entry
point invokes the combination algebra to reconcile the identities of the
two sides — raising the definition error at construction time — and
otherwise returns a new node at the operator precedence whose evaluator
evaluates both sides against the input and applies the operator. -/
def LambdaExpression.add (self : LambdaExpression) (other : Stmt) :
    Except PyErr LambdaExpression :=
  match getRootVar [.expr self, other] with
  | .error e => .error e
  | .ok (rv, _) =>
      .ok { _fun := fun input n =>
              match self.evaluate input n with
              | .error e => .error e
              | .ok (l, n1) =>
                  match MiniLambda.evaluate other input n1 with
                  | .error e => .error e
                  | .ok (r, n2) =>
                      match pyAdd l r with
                      | .error e => .error e
                      | .ok v => .ok (v, n2)
            _str_expr := getRepr (.expr self) (some PRECEDENCE_ADD_SUB) ++
              " + " ++ getRepr other (some PRECEDENCE_ADD_SUB)
            rootVar := rv.getD self.rootVar
            _precedence_level := PRECEDENCE_ADD_SUB }

/-- Python builtin `getattr` on the embedded value universe.  The embedded
plain values carry no modelled attributes, so every lookup fails with
`AttributeError`, exactly as `getattr` does for an attribute that does not
exist on the evaluated object; the claims below only concern the point at
which this failure surfaces, never a successful lookup. -/
def pyGetattr (_v : PyVal) (name : String) : Except PyErr PyVal :=
  .error (.attributeError ("object has no attribute " ++ name))

/-- The method `__getattr__` of `main.LambdaExpression` (the fallback
Python runs for attribute names not defined on the class itself): builds a
new expression at attribute-reference precedence whose evaluator evaluates
this expression and then performs `getattr` on the result with the (passed
through `evaluate`, hence unchanged) attribute name. -/
def LambdaExpression.getattrM (self : LambdaExpression) (name : String) :
    Except PyErr LambdaExpression :=
  match getRootVar [.expr self, .val (.str name)] with
  | .error e => .error e
  | .ok (rv, _) =>
      .ok { _fun := fun input n =>
              match self.evaluate input n with
              | .error e => .error e
              | .ok (r, n1) =>
                  match pyGetattr r name with
                  | .error e => .error e
                  | .ok v => .ok (v, n1)
            _str_expr := getRepr (.expr self)
              (some PRECEDENCE_SUBSCRIPTION_SLICING_CALL_ATTRREF) ++ "." ++ name
            rootVar := rv.getD self.rootVar
            _precedence_level := PRECEDENCE_SUBSCRIPTION_SLICING_CALL_ATTRREF }

/-- The method `__iter__` of `main.LambdaExpression`: unconditionally
forbidden, to detect list/set/tuple/dict comprehensions. -/
def LambdaExpression.iterM (_self : LambdaExpression) : Except PyErr PyVal :=
  .error (.functionDefinitionError
    "__iter__ cannot be used with a LambdaExpression. If you meant to use iter() explicitly, please use the replacement method Iter() provided in mini_lambda.")

/-- The method `__bool__` of `main.LambdaExpression`: unconditionally
forbidden, because Python casts the result before returning. -/
def LambdaExpression.boolM (_self : LambdaExpression) : Except PyErr PyVal :=
  .error (.functionDefinitionError
    "__bool__ cannot be used with a LambdaExpression. Please use the Bool() method provided in mini_lambda instead.")

/-- The method `__index__` of `main.LambdaExpression`: unconditionally
forbidden, because Python casts the result before returning. -/
def LambdaExpression.indexM (_self : LambdaExpression) : Except PyErr PyVal :=
  .error (.functionDefinitionError
    "It is not currently possible to use a LambdaExpression as an index. Instead, please use the equivalent Get(o, x) provided in mini_lambda.")

/-- The method `__contains__` of `main.LambdaExpression`: unconditionally
forbidden, because Python casts the result as a bool. -/
def LambdaExpression.containsM (_self : LambdaExpression) (_item : Stmt) :
    Except PyErr PyVal :=
  .error (.functionDefinitionError
    "membership operators in / not in cannot be used with a LambdaExpression because python casts the result as a bool. Alternate x.contains() and x.is_in() methods are provided, as well as an In() method.")

/-- The method `__format__` of `main.LambdaExpression`: unconditionally
forbidden, because Python checks the result type. -/
def LambdaExpression.formatM (_self : LambdaExpression) (_args : List Stmt) :
    Except PyErr PyVal :=
  .error (.functionDefinitionError
    "__format__ is not supported by LambdaExpression, since python raises an error when its output is not directly an object of the type it expects.")

/-- The frozen view `LambdaExpression.LambdaFunction` of `main.py`: a
wrapper around an expression that evaluates it when called. -/
structure LambdaFunction where
  expression : LambdaExpression

/-- The `__call__` method of `LambdaFunction`: calling the frozen object
evaluates the inner expression on the given argument. -/
def LambdaFunction.call (self : LambdaFunction) : EvalFun :=
  fun arg n => self.expression.evaluate arg n

/-- The method `as_function` of `main.LambdaExpression` (the freeze
operation, also reachable through the module-level `_` / `L` / `F`
helpers): wrap this expression in a `LambdaFunction` view. -/
def LambdaExpression.as_function (self : LambdaExpression) : LambdaFunction :=
  { expression := self }

/-- Helper for closed statements: evaluate the expression inside an
operator result on a concrete input (errors and raw-value results are
mapped to an error). -/
def evalOpResult (r : Except PyErr OpResult) (input : PyVal) (n : Nat) :
    Except PyErr (PyVal × Nat) :=
  match r with
  | .ok (.expr e) => e.evaluate input n
  | .ok (.val _) => .error (.typeError "not an expression")
  | .error e => .error e

/-- Whether an exceptional computation succeeded. -/
def isOkE : Except PyErr α → Bool
  | .ok _ => true
  | .error _ => false

/-- The identity tokens of the expression nodes among an argument list, in
order. -/
def stmtRoots : List Stmt → List Int
  | [] => []
  | .expr e :: rest => e.rootVar :: stmtRoots rest
  | .val _ :: rest => stmtRoots rest

/-- A counting test double: a constant expression node whose evaluator
increments the observation counter on every invocation. -/
def countingNine : LambdaExpression :=
  { _fun := fun _ n => .ok (.int 9, n + 1)
    _str_expr := "nine"
    rootVar := CONSTANT_VAR_ID
    _precedence_level := PRECEDENCE_MAX }

/-- A sample node whose stored text is an ADD-precedence rendering. -/
def addPrecNode : LambdaExpression :=
  { _fun := fun x n => .ok (x, n)
    _str_expr := "p + q"
    rootVar := 1
    _precedence_level := PRECEDENCE_ADD_SUB }

/-- A sample node whose stored text is a MUL-precedence rendering. -/
def mulPrecNode : LambdaExpression :=
  { _fun := fun x n => .ok (x, n)
    _str_expr := "p * q"
    rootVar := 1
    _precedence_level := PRECEDENCE_MUL_DIV_ETC }

/-- The node built by `__getattr__` (named so that the existential witness
of the attribute-access claim can be written down; `getattrM` produces
exactly this node, see `c10_getattr_deferred`). -/
def getattrNode (self : LambdaExpression) (name : String) : LambdaExpression :=
  { _fun := fun input n =>
      match self.evaluate input n with
      | .error e => .error e
      | .ok (r, n1) =>
          match pyGetattr r name with
          | .error e => .error e
          | .ok v => .ok (v, n1)
    _str_expr := getRepr (.expr self)
      (some PRECEDENCE_SUBSCRIPTION_SLICING_CALL_ATTRREF) ++ "." ++ name
    rootVar := self.rootVar
    _precedence_level := PRECEDENCE_SUBSCRIPTION_SLICING_CALL_ATTRREF }

theorem truthy_bool (b : Bool) : truthy (.bool b) = b := rfl

theorem getRootVar_expr_val (self : LambdaExpression) (v : PyVal) :
    getRootVar [.expr self, .val v] = .ok (some self.rootVar, some self) := by
  have h1 : grvScan [.expr self, .val v] = .ok (some self.rootVar, some self) := rfl
  have h2 : pyOrRoot (some self.rootVar) (some self) = some self.rootVar := by
    unfold pyOrRoot
    dsimp only
    split_ifs <;> simp
  unfold getRootVar
  rw [h1]
  dsimp only
  rw [h2]

/-- C1.  Freezing is a pure view of evaluation: for every expression node
and every input (and observation-counter state), calling the frozen
callable obtained via `as_function` returns exactly the result of
`evaluate` on that input. -/
theorem c1_freeze_is_pure_view (e : LambdaExpression) (v : PyVal) (n : Nat) :
    (e.as_function).call v n = e.evaluate v n := rfl

/-- C2.  Two independently created variable nodes (distinct ids, display
names arbitrary and possibly identical) cannot be combined: identity
reconciliation, the `&` combination and the (spec-modelled) `+` combination
all raise `FunctionDefinitionError` at construction time. -/
theorem c2_two_variables_cannot_combine (s1 s2 : String) (i j : Int)
    (h1 : i ≠ CONSTANT_VAR_ID) (h2 : j ≠ CONSTANT_VAR_ID) (hij : i ≠ j) :
    ∃ m, getRootVar [.expr (InputVar s1 i), .expr (InputVar s2 j)] =
          .error (.functionDefinitionError m) ∧
      (InputVar s1 i).and_ (.expr (InputVar s2 j)) =
          .error (.functionDefinitionError m) ∧
      (InputVar s1 i).add (.expr (InputVar s2 j)) =
          .error (.functionDefinitionError m) := by
  have hassert : assertHasSameRootVar (InputVar s1 i) (.expr (InputVar s2 j)) =
      .error (.functionDefinitionError
        "It is not allowed to combine several variables (x, s, l...) in the same expression") := by
    unfold assertHasSameRootVar InputVar
    simp [h1, h2, hij]
  have hgrv : getRootVar [.expr (InputVar s1 i), .expr (InputVar s2 j)] =
      .error (.functionDefinitionError
        "It is not allowed to combine several variables (x, s, l...) in the same expression") := by
    unfold getRootVar grvScan grvLoop
    rw [hassert]
  refine ⟨_, hgrv, ?_, ?_⟩
  · unfold LambdaExpression.and_
    rw [show Stmt.isCallable (.expr (InputVar s2 j)) = true from rfl]
    simp only [if_true]
    rw [hgrv]
  · unfold LambdaExpression.add
    rw [hgrv]

/-- Witness for C2 at a concrete input: two variables that share the
display name `x` but have distinct ids. -/
theorem c2_witness :
    ∃ m, getRootVar [.expr (InputVar "x" 1), .expr (InputVar "x" 2)] =
          .error (.functionDefinitionError m) ∧
      (InputVar "x" 1).and_ (.expr (InputVar "x" 2)) =
          .error (.functionDefinitionError m) ∧
      (InputVar "x" 1).add (.expr (InputVar "x" 2)) =
          .error (.functionDefinitionError m) :=
  c2_two_variables_cannot_combine "x" "x" 1 2 (by decide) (by decide) (by decide)

/-- C5 (code bug).  The truthy branch of `&` does not evaluate a plain
callable right-hand side: `base.evaluate` returns a non-expression callable
unchanged (contradicting its own docstring), so `x & f` built from a plain
callable `f` evaluates to `bool(f)` = `True` on every truthy left side, no
matter what `f` would return.  Here the embedded code is evaluated at the
failing input: the variable `x`, a plain callable right side, input `1`. -/
theorem c5_callable_right_side_never_invoked :
    evalOpResult ((InputVar "x" 1).and_ (.val (.callableObj (some "f"))))
      (.int 1) 0 = .ok (.bool true, 0) := rfl

/-- C8.  Each of the five host-coerced operations — iteration, boolean
coercion, use as a raw integer index, membership-test coercion and format
conversion — immediately raises `FunctionDefinitionError` on any
expression. -/
theorem c8_forbidden_intercepted_operations (e : LambdaExpression)
    (item : Stmt) (args : List Stmt) :
    (∃ m, e.iterM = .error (.functionDefinitionError m)) ∧
    (∃ m, e.boolM = .error (.functionDefinitionError m)) ∧
    (∃ m, e.indexM = .error (.functionDefinitionError m)) ∧
    (∃ m, e.containsM item = .error (.functionDefinitionError m)) ∧
    (∃ m, e.formatM args = .error (.functionDefinitionError m)) :=
  ⟨⟨_, rfl⟩, ⟨_, rfl⟩, ⟨_, rfl⟩, ⟨_, rfl⟩, ⟨_, rfl⟩⟩

/-- C9.  Constructing a constant from a callable that cannot report its own
name (no `__name__`, or the anonymous name `<lambda>`) without an explicit
display name raises a construction error (`ValueError`); supplying a
(non-empty) name succeeds and the node renders exactly as that name. -/
theorem c9_constant_from_anonymous_callable (pn : Option String)
    (name : String) (hanon : pn = none ∨ pn = some "<lambda>")
    (hne : name ≠ "") :
    (∃ m, LambdaExpression.constant (.callableObj pn) none =
        .error (.valueError m)) ∧
    (∃ e, LambdaExpression.constant (.callableObj pn) (some name) = .ok e ∧
        e.to_string = name) := by
  constructor
  · rcases hanon with h | h <;> subst h
    · exact ⟨_, rfl⟩
    · exact ⟨_, rfl⟩
  · refine ⟨constantNode name (.callableObj pn), ?_, rfl⟩
    unfold LambdaExpression.constant pyOrStr
    simp [hne]

/-- Witness for C9 at a concrete input: an anonymous lambda, display name
`log10`. -/
theorem c9_witness :
    (∃ m, LambdaExpression.constant (.callableObj (some "<lambda>")) none =
        .error (.valueError m)) ∧
    (∃ e, LambdaExpression.constant (.callableObj (some "<lambda>"))
        (some "log10") = .ok e ∧ e.to_string = "log10") :=
  c9_constant_from_anonymous_callable (some "<lambda>") "log10"
    (Or.inr rfl) (by decide)

/-- C4.  Short-circuit AND law: whenever the node `a & other` (with a
callable or expression right side) is evaluated on an input for which `a`
evaluates to a falsy value, the result is `False` with the counter exactly
as `a` left it — independently of `other`, whose evaluator is therefore
never invoked for that input. -/
theorem c4_and_short_circuits_on_falsy_left (a e : LambdaExpression)
    (other : Stmt) (input left : PyVal) (n n1 : Nat)
    (hcall : other.isCallable = true)
    (hbuild : a.and_ other = .ok (.expr e))
    (hleft : a.evaluate input n = .ok (left, n1))
    (hfalsy : truthy left = false) :
    e.evaluate input n = .ok (.bool false, n1) := by
  unfold LambdaExpression.and_ at hbuild
  rw [hcall] at hbuild
  simp only [if_true] at hbuild
  rcases hgr : getRootVar [.expr a, other] with err | pair
  · rw [hgr] at hbuild
    exact absurd hbuild (by simp)
  · rw [hgr] at hbuild
    obtain ⟨rv, fe⟩ := pair
    simp only [Except.ok.injEq, OpResult.expr.injEq] at hbuild
    subst hbuild
    simp only [LambdaExpression.evaluate]
    rw [show a._fun input n = Except.ok (left, n1) from hleft]
    dsimp only
    rw [hfalsy]
    simp

/-- Witness for C4 at a concrete input: left side the variable `x`, right
side a counting test double, input `0` (falsy).  The result is `False` and
the double's counter stays at `0`: its evaluator never ran. -/
theorem c4_witness :
    ∃ e, (InputVar "x" 1).and_ (.expr countingNine) = .ok (.expr e) ∧
      e.evaluate (.int 0) 0 = .ok (.bool false, 0) :=
  ⟨_, rfl, c4_and_short_circuits_on_falsy_left (InputVar "x" 1) _
    (.expr countingNine) (.int 0) (.int 0) 0 0 rfl rfl rfl rfl⟩

/-- Counterexample for C6 as stated: for `x ^ five` (a constant expression
`5` on the right), input `0` gives a falsy left side and the combined node
evaluates to the raw right value `5`, which is not the boolean
`bool(0) XOR bool(5) = True`. -/
theorem c6_counterexample :
    evalOpResult ((InputVar "x" 1).xor_ (.expr (constantNode "5" (.int 5))))
        (.int 0) 0 = .ok (.int 5, 0) ∧
      PyVal.int 5 ≠ PyVal.bool true :=
  ⟨rfl, fun h => PyVal.noConfusion h⟩

/-- C6 (amended).  For `a ^ b` with an expression right side, both sides
are always evaluated (the right immediately after the left, as the counter
threading shows), and the result is the Python value
`(left and not right) or (not left and right)`: the boolean `not right`
cast when the left result is truthy, but the raw right value when the left
result is falsy.  Its truthiness always equals the exclusive-or of the two
boolean casts, yet it is a genuine bool only on the truthy-left branch. -/
theorem c6_xor_evaluates_both_sides (a b e : LambdaExpression)
    (input left right : PyVal) (n n1 n2 : Nat)
    (hbuild : a.xor_ (.expr b) = .ok (.expr e))
    (hleft : a.evaluate input n = .ok (left, n1))
    (hright : b.evaluate input n1 = .ok (right, n2)) :
    e.evaluate input n =
        .ok ((if truthy left then .bool (!truthy right) else right), n2) ∧
      truthy (if truthy left then PyVal.bool (!truthy right) else right) =
        xor (truthy left) (truthy right) := by
  constructor
  · unfold LambdaExpression.xor_ at hbuild
    rw [show Stmt.isCallable (.expr b) = true from rfl] at hbuild
    simp only [if_true] at hbuild
    rcases hgr : getRootVar [.expr a, .expr b] with err | pair
    · rw [hgr] at hbuild
      exact absurd hbuild (by simp)
    · rw [hgr] at hbuild
      obtain ⟨rv, fe⟩ := pair
      simp only [Except.ok.injEq, OpResult.expr.injEq] at hbuild
      subst hbuild
      simp only [LambdaExpression.evaluate, MiniLambda.evaluate]
      rw [show a._fun input n = Except.ok (left, n1) from hleft]
      dsimp only
      rw [show b._fun input n1 = Except.ok (right, n2) from hright]
      dsimp only
      unfold pyOrV pyAndV pyNotV
      cases hl : truthy left <;> cases hr : truthy right <;>
        simp [hl, hr, truthy_bool]
  · cases hl : truthy left
    · simp [hl]
    · simp [hl, truthy]

/-- Witness for C6 at a concrete input: `x ^ nine` with a counting test
double on the right, input `0`.  The left side is falsy, the right side is
still evaluated (the counter moves from `0` to `1`) and the result is the
raw right value `9`. -/
theorem c6_witness :
    ∃ e, (InputVar "x" 1).xor_ (.expr countingNine) = .ok (.expr e) ∧
      e.evaluate (.int 0) 0 = .ok (.int 9, 1) :=
  ⟨_, rfl, (c6_xor_evaluates_both_sides (InputVar "x" 1) countingNine _
    (.int 0) (.int 0) (.int 9) 0 0 1 rfl rfl rfl).1⟩

/-- C7.  Parenthesization rule of `get_repr`: inside a context of numeric
precedence `p`, the stored text of an expression is wrapped in parentheses
exactly when `p` is strictly higher than the stored precedence of the
expression; consequently an ADD-precedence sub-expression embedded at MUL
precedence is parenthesized, while a MUL-precedence sub-expression embedded
at ADD precedence is not. -/
theorem c7_parenthesization_rule (e : LambdaExpression) (p : Int) :
    (getRepr (.expr e) (some p) = "(" ++ e._str_expr ++ ")" ↔
        e._precedence_level < p) ∧
      (e._precedence_level = PRECEDENCE_ADD_SUB →
        getRepr (.expr e) (some PRECEDENCE_MUL_DIV_ETC) =
          "(" ++ e._str_expr ++ ")") ∧
      (e._precedence_level = PRECEDENCE_MUL_DIV_ETC →
        getRepr (.expr e) (some PRECEDENCE_ADD_SUB) = e._str_expr) := by
  have hwrap : ∀ q : Int, getRepr (.expr e) (some q) =
      if e._precedence_level < q then "(" ++ e._str_expr ++ ")"
      else e._str_expr := fun _ => rfl
  have hneq : e._str_expr ≠ "(" ++ e._str_expr ++ ")" := by
    intro h
    have hlen := congrArg String.length h
    rw [String.length_append, String.length_append,
      show ("(" : String).length = 1 from rfl,
      show (")" : String).length = 1 from rfl] at hlen
    omega
  refine ⟨?_, ?_, ?_⟩
  · rw [hwrap p]
    constructor
    · intro h
      by_contra hnot
      rw [if_neg hnot] at h
      exact hneq h
    · intro h
      rw [if_pos h]
  · intro h
    rw [hwrap, if_pos (by rw [h]; decide)]
  · intro h
    rw [hwrap, if_neg (by rw [h]; decide)]

/-- Witness for C7 at a concrete input: a node of ADD precedence inside a
MUL context is parenthesized, a node of MUL precedence inside an ADD
context is not, and the wrap-iff equivalence holds at `p = 11`. -/
theorem c7_witness :
    getRepr (.expr addPrecNode) (some PRECEDENCE_MUL_DIV_ETC) = "(p + q)" ∧
      getRepr (.expr mulPrecNode) (some PRECEDENCE_ADD_SUB) = "p * q" :=
  ⟨(c7_parenthesization_rule addPrecNode PRECEDENCE_MUL_DIV_ETC).2.1 rfl,
   (c7_parenthesization_rule mulPrecNode PRECEDENCE_ADD_SUB).2.2 rfl⟩

/-- C10.  Attribute access never fails at construction: for every attribute
name (beyond those the class itself defines, for which Python never calls
`__getattr__`), building `self.name` succeeds and yields a node at
call/attribute precedence whose evaluator performs `getattr` on the
evaluated result; in the embedded universe no attribute exists on plain
values, so the misspelled-attribute failure surfaces only at evaluation
time, as an `AttributeError`. -/
theorem c10_getattr_deferred (self : LambdaExpression) (name : String) :
    ∃ e, self.getattrM name = .ok e ∧
      e._precedence_level = PRECEDENCE_SUBSCRIPTION_SLICING_CALL_ATTRREF ∧
      (∀ (input r : PyVal) (n n1 : Nat),
        self.evaluate input n = .ok (r, n1) →
        e.evaluate input n =
          match pyGetattr r name with
          | .error err => .error err
          | .ok v => .ok (v, n1)) ∧
      (∀ (input r : PyVal) (n n1 : Nat),
        self.evaluate input n = .ok (r, n1) →
        e.evaluate input n =
          .error (.attributeError ("object has no attribute " ++ name))) := by
  have hgr := getRootVar_expr_val self (.str name)
  have hbuild : self.getattrM name = .ok (getattrNode self name) := by
    unfold LambdaExpression.getattrM
    rw [hgr]
    rfl
  refine ⟨getattrNode self name, hbuild, rfl, ?_, ?_⟩
  · intro input r n n1 hr
    simp only [getattrNode, LambdaExpression.evaluate]
    rw [show self._fun input n = Except.ok (r, n1) from hr]
  · intro input r n n1 hr
    simp only [getattrNode, LambdaExpression.evaluate]
    rw [show self._fun input n = Except.ok (r, n1) from hr]
    rfl

/-- Witness for C10 at a concrete input: `x.foo` builds fine and fails with
`AttributeError` only when evaluated (here on input `5`). -/
theorem c10_witness :
    ∃ e, (InputVar "x" 1).getattrM "foo" = .ok e ∧
      e.evaluate (.int 5) 0 =
        .error (.attributeError "object has no attribute foo") := by
  obtain ⟨e, hbuild, _, _, heval⟩ := c10_getattr_deferred (InputVar "x" 1) "foo"
  exact ⟨e, hbuild, heval (.int 5) (.int 5) 0 0 rfl⟩

theorem grvScan_skip_vals (pre l : List Stmt) (hpre : stmtRoots pre = []) :
    grvScan (pre ++ l) = grvScan l := by
  induction pre with
  | nil => rfl
  | cons a pre ih =>
      cases a with
      | expr e => simp [stmtRoots] at hpre
      | val v =>
          rw [show stmtRoots (.val v :: pre) = stmtRoots pre from rfl] at hpre
          exact ih hpre

theorem grvScan_no_exprs (l : List Stmt) (h : stmtRoots l = []) :
    grvScan l = .ok (none, none) := by
  induction l with
  | nil => rfl
  | cons a l ih =>
      cases a with
      | expr e => simp [stmtRoots] at h
      | val v =>
          rw [show stmtRoots (.val v :: l) = stmtRoots l from rfl] at h
          exact ih h

theorem assert_ok_of_compatible (e : LambdaExpression) (a : Stmt)
    (hnc : e.rootVar ≠ CONSTANT_VAR_ID)
    (ha : ∀ r ∈ stmtRoots [a], r = CONSTANT_VAR_ID ∨ r = e.rootVar) :
    assertHasSameRootVar e a = .ok e.rootVar := by
  cases a with
  | val v => rfl
  | expr o =>
      have ho : o.rootVar = CONSTANT_VAR_ID ∨ o.rootVar = e.rootVar :=
        ha o.rootVar (by simp [stmtRoots])
      unfold assertHasSameRootVar
      dsimp only
      rcases ho with ho | ho
      · rw [if_neg (by simp [ho]), if_pos hnc]
      · rw [if_neg (by simp [ho]), if_pos hnc]

theorem grvLoop_ok_of_compatible (e : LambdaExpression) (post : List Stmt)
    (hnc : e.rootVar ≠ CONSTANT_VAR_ID)
    (hpost : ∀ r ∈ stmtRoots post, r = CONSTANT_VAR_ID ∨ r = e.rootVar) :
    ∀ rv, grvLoop e rv post =
      .ok (if post.isEmpty then rv else some e.rootVar) := by
  induction post with
  | nil => intro rv; rfl
  | cons a post ih =>
      intro rv
      have hstep : assertHasSameRootVar e a = .ok e.rootVar :=
        assert_ok_of_compatible e a hnc (fun r hr => by
          apply hpost
          cases a with
          | expr o =>
              simp [stmtRoots] at hr
              simp [stmtRoots, hr]
          | val v => simp [stmtRoots] at hr)
      have htail : ∀ r ∈ stmtRoots post, r = CONSTANT_VAR_ID ∨ r = e.rootVar := by
        intro r hr
        apply hpost
        cases a with
        | expr o => simp [stmtRoots]; right; exact hr
        | val v => exact hr
      unfold grvLoop
      rw [hstep]
      dsimp only
      rw [ih htail (some e.rootVar)]
      cases post <;> simp

theorem grvLoop_error_of_incompatible (e : LambdaExpression) (post : List Stmt)
    (hnc : e.rootVar ≠ CONSTANT_VAR_ID)
    (hbad : ∃ r ∈ stmtRoots post, r ≠ CONSTANT_VAR_ID ∧ r ≠ e.rootVar) :
    ∀ rv, isOkE (grvLoop e rv post) = false := by
  induction post with
  | nil => simp [stmtRoots] at hbad
  | cons a post ih =>
      intro rv
      cases a with
      | val v =>
          rw [show stmtRoots (.val v :: post) = stmtRoots post from rfl] at hbad
          unfold grvLoop
          rw [show assertHasSameRootVar e (.val v) = .ok e.rootVar from rfl]
          exact ih hbad (some e.rootVar)
      | expr o =>
          rcases hassert : assertHasSameRootVar e (.expr o) with er | r'
          · unfold grvLoop
            rw [hassert]
            rfl
          · have hno : ¬(o.rootVar ≠ CONSTANT_VAR_ID ∧ o.rootVar ≠ e.rootVar) := by
              intro ⟨hx, hy⟩
              unfold assertHasSameRootVar at hassert
              dsimp only at hassert
              rw [if_pos ⟨hnc, hx, fun hk => hy hk.symm⟩] at hassert
              exact Except.noConfusion hassert
            have hbad' : ∃ r ∈ stmtRoots post, r ≠ CONSTANT_VAR_ID ∧ r ≠ e.rootVar := by
              obtain ⟨r, hr, hrc⟩ := hbad
              rw [show stmtRoots (.expr o :: post) = o.rootVar :: stmtRoots post
                from rfl] at hr
              rcases List.mem_cons.mp hr with hr | hr
              · exact absurd (hr ▸ hrc) hno
              · exact ⟨r, hr, hrc⟩
            unfold grvLoop
            rw [hassert]
            exact ih hbad' (some r')

theorem grvLoop_const_first (o : LambdaExpression)
    (ho : o.rootVar = CONSTANT_VAR_ID) (l : List Stmt)
    (hconst : ∀ r ∈ stmtRoots l, r = CONSTANT_VAR_ID) :
    ∀ rv, (rv = none ∨ rv = some CONSTANT_VAR_ID) →
      grvLoop o rv l = .ok none ∨
        grvLoop o rv l = .ok (some CONSTANT_VAR_ID) := by
  induction l with
  | nil =>
      intro rv hrv
      rcases hrv with h | h <;> subst h
      · exact Or.inl rfl
      · exact Or.inr rfl
  | cons b l ih =>
      intro rv hrv
      have htail : ∀ r ∈ stmtRoots l, r = CONSTANT_VAR_ID := by
        intro r hr
        apply hconst
        cases b with
        | expr p => simp [stmtRoots]; right; exact hr
        | val w => exact hr
      have hstep : assertHasSameRootVar o b = .ok CONSTANT_VAR_ID := by
        cases b with
        | val w =>
            rw [show assertHasSameRootVar o (.val w) = .ok o.rootVar from rfl, ho]
        | expr p =>
            have hp : p.rootVar = CONSTANT_VAR_ID :=
              hconst p.rootVar (by simp [stmtRoots])
            unfold assertHasSameRootVar
            dsimp only
            rw [if_neg (by simp [ho]), if_neg (by simp [ho]), hp]
      unfold grvLoop
      rw [hstep]
      exact ih htail (some CONSTANT_VAR_ID) (Or.inr rfl)

/-- Counterexample for C3 as stated: with a constant first argument and two
later variable nodes carrying the distinct non-constant identities `1` and
`2`, identity reconciliation reports no definition error at all (the loop
only ever compares against the first expression found, here the constant),
and it returns the identity `2` of the last node rather than failing. -/
theorem c3_counterexample :
    getRootVar [.expr (constantNode "c" (.int 7)), .expr (InputVar "x" 1),
        .expr (InputVar "y" 2)] =
      .ok (some 2, some (constantNode "c" (.int 7))) ∧
      (1 : Int) ≠ CONSTANT_VAR_ID ∧ (2 : Int) ≠ CONSTANT_VAR_ID ∧
      (1 : Int) ≠ 2 :=
  ⟨rfl, by decide, by decide, by decide⟩

/-- C3 (amended).  Identity reconciliation over an argument list: plain
values are ignored; if no argument is a node the result is the no-identity
sentinel; if every node given is constant the result is the constant token.
However the scan compares later arguments only against the FIRST node of
the list, so the claimed error condition holds only when that first node is
non-constant: in that case a definition error is reported exactly when some
later node carries a different non-constant identity, and otherwise the
reconciled identity is the first node's identity (equivalently, the single
non-constant identity present).  When the first node is constant, two
distinct non-constant identities among later nodes are NOT detected (see
the counterexample). -/
theorem c3_reconcile_identity_amended :
    (∀ l : List Stmt, stmtRoots l = [] → getRootVar l = .ok (none, none)) ∧
      (∀ l : List Stmt, stmtRoots l ≠ [] →
        (∀ r ∈ stmtRoots l, r = CONSTANT_VAR_ID) →
        ∃ fe, getRootVar l = .ok (some CONSTANT_VAR_ID, some fe)) ∧
      (∀ (pre post : List Stmt) (e : LambdaExpression),
        stmtRoots pre = [] → e.rootVar ≠ CONSTANT_VAR_ID → e.rootVar ≠ 0 →
        ((isOkE (getRootVar (pre ++ .expr e :: post)) = false ↔
            ∃ r ∈ stmtRoots post, r ≠ CONSTANT_VAR_ID ∧ r ≠ e.rootVar) ∧
          ((∀ r ∈ stmtRoots post, r = CONSTANT_VAR_ID ∨ r = e.rootVar) →
            getRootVar (pre ++ .expr e :: post) =
              .ok (some e.rootVar, some e)))) := by
  refine ⟨?_, ?_, ?_⟩
  · intro l h
    unfold getRootVar
    rw [grvScan_no_exprs l h]
    rfl
  · intro l hne hconst
    induction l with
    | nil => exact absurd rfl hne
    | cons a l ih =>
        cases a with
        | val v =>
            rw [show stmtRoots (.val v :: l) = stmtRoots l from rfl] at hne hconst
            obtain ⟨fe, hfe⟩ := ih hne hconst
            exact ⟨fe, by
              rw [show getRootVar (.val v :: l) = getRootVar l from rfl]
              exact hfe⟩
        | expr o =>
            have ho : o.rootVar = CONSTANT_VAR_ID :=
              hconst o.rootVar (by simp [stmtRoots])
            have htail : ∀ r ∈ stmtRoots l, r = CONSTANT_VAR_ID := by
              intro r hr
              apply hconst
              simp [stmtRoots]
              right; exact hr
            have hloop := grvLoop_const_first o ho l htail none (Or.inl rfl)
            refine ⟨o, ?_⟩
            unfold getRootVar grvScan
            rcases hloop with h | h <;> rw [h]
            · dsimp only [pyOrRoot]
              rw [show (some o).map (·.rootVar) = some o.rootVar from rfl, ho]
            · dsimp only [pyOrRoot]
              rw [if_neg (by decide)]
  · intro pre post e hpre hnc h0
    have hsplit : grvScan (pre ++ .expr e :: post) = grvScan (.expr e :: post) :=
      grvScan_skip_vals pre (.expr e :: post) hpre
    constructor
    · constructor
      · intro herr
        by_contra hnot
        push_neg at hnot
        have hgood : ∀ r ∈ stmtRoots post, r = CONSTANT_VAR_ID ∨ r = e.rootVar := by
          intro r hr
          rcases eq_or_ne r CONSTANT_VAR_ID with h | h
          · exact Or.inl h
          · exact Or.inr (hnot r hr h)
        have hloop := grvLoop_ok_of_compatible e post hnc hgood none
        unfold getRootVar at herr
        rw [hsplit] at herr
        unfold grvScan at herr
        rw [hloop] at herr
        exact Bool.noConfusion herr
      · intro hbad
        have hloop := grvLoop_error_of_incompatible e post hnc hbad none
        unfold getRootVar
        rw [hsplit]
        unfold grvScan
        rcases hg : grvLoop e none post with er | rv
        · rfl
        · rw [hg] at hloop
          exact absurd hloop (by simp [isOkE])
    · intro hgood
      have hloop := grvLoop_ok_of_compatible e post hnc hgood none
      unfold getRootVar
      rw [hsplit]
      unfold grvScan
      rw [hloop]
      cases post with
      | nil =>
          show Except.ok (pyOrRoot none (some e), some e) = _
          rfl
      | cons b post =>
          show Except.ok (pyOrRoot (some e.rootVar) (some e), some e) = _
          unfold pyOrRoot
          dsimp only
          rw [if_neg h0]

/-- Witness for C3 at concrete inputs: a list with no node yields the
no-identity sentinel, and a list headed by a non-constant variable followed
by a plain value yields that variable's identity. -/
theorem c3_witness :
    getRootVar [Stmt.val (PyVal.int 5)] = .ok (none, none) ∧
      getRootVar [Stmt.expr (InputVar "x" 1), Stmt.val (PyVal.int 3)] =
        .ok (some 1, some (InputVar "x" 1)) :=
  ⟨c3_reconcile_identity_amended.1 [.val (.int 5)] rfl,
   (c3_reconcile_identity_amended.2.2 [] [.val (.int 3)] (InputVar "x" 1) rfl
      (by decide) (by decide)).2 (by simp [stmtRoots])⟩

end MiniLambda
